import Mathlib

/-!
Shallow embedding of the debounced reversal scheduler of
`custom_components/spring_input_booleans/__init__.py`.

Python dicts keyed by entity id are modelled as association lists
`List (String × α)` with last-write-wins insertion.  Timestamps
(`time.time()`) are modelled as integers.  Entity state values
(`"on"`, `"off"`, `"unknown"`, ...) stay strings, as in the source.
Awaiting `asyncio.sleep` does not change any modelled state and is
dropped; the side effects of one run of the delayed coroutine
(notification service calls, actuator service calls, the override and
processing maps after the run) are collected in a result record.
Log messages and notification payload texts are not modelled.
-/

namespace SpringInputBooleans

/-- Lookup in a python-dict-like association list (`d.get(k)` / `d[k]`). -/
def dlookup {α : Type} : List (String × α) → String → Option α
  | [], _ => none
  | (k, v) :: rest, key => if k = key then some v else dlookup rest key

/-- Deletion from a python-dict-like association list (`del d[k]` / `d.pop(k, None)`). -/
def derase {α : Type} : List (String × α) → String → List (String × α)
  | [], _ => []
  | (k, v) :: rest, key =>
      if k = key then derase rest key else (k, v) :: derase rest key

/-- Assignment `d[k] = v` into a python-dict-like association list (last write wins). -/
def dinsert {α : Type} (m : List (String × α)) (key : String) (v : α) :
    List (String × α) :=
  (key, v) :: derase m key

/-- State-change context, `new_state.context`: an id and an optional
`user_id` (`None` for programmatic changes; the empty string is also
falsy in python). -/
structure Context where
  id : String
  user_id : Option String
  deriving DecidableEq, Repr

/-- Entity state object as used by the handlers: the `.state` string and
the optional `.context`. -/
structure StateObj where
  state : String
  context : Option Context
  deriving DecidableEq, Repr

/-- Truthiness of `context.user_id` negated: python `not user_id` is true
for `None` and for the empty string. -/
def user_id_falsy : Option String → Bool
  | none => true
  | some u => u == ""

/-- The filter at lines 311-319 of `__init__.py`:
`new_state.context and not new_state.context.user_id`.  True exactly
when a context object is present but its `user_id` is falsy. -/
def contextNoUser (s : StateObj) : Bool :=
  match s.context with
  | none => false
  | some c => user_id_falsy c.user_id

/-- Python `s.startswith(p)`, as a prefix test on the character lists. -/
def pyStartsWith (s p : String) : Bool :=
  p.toList.isPrefixOf s.toList

/-- Processing map: `processing_entities`, entity id to the timestamp at
which the entity was accepted for processing. -/
abbrev ProcMap := List (String × Int)

/-- Override map: `hass.data["spring_input_booleans_delays"]`, entity id
to override delay seconds. -/
abbrev OverrideMap := List (String × Int)

/-- A scheduled pending reversal task: the arguments
`(changed_entity_id, new_state, old_state)` passed to
`async_handle_state_change` by `hass.async_add_job`. -/
abbrev SchedTask := String × StateObj × StateObj

/-- Embedding of the event callback `handle_input_boolean_change`
(lines 280-333 of `__init__.py`).  Inputs: the configured entity id,
the current `processing_entities` map, the current time, and the event
fields `entity_id`, `new_state`, `old_state` (each possibly `None`).
Returns the updated `processing_entities` map together with the
scheduled task, if any (`none` means the event was ignored). -/
def handle_input_boolean_change (cfg_entity : String) (processing : ProcMap)
    (now : Int) (ev_entity : Option String)
    (new_state old_state : Option StateObj) : ProcMap × Option SchedTask :=
  -- `if changed_entity_id != entity_id: return`
  if ev_entity ≠ some cfg_entity then (processing, none)
  else
    match new_state, old_state with
    | some ns, some os =>
      -- `if not new_state or not old_state or new_state.state == old_state.state: return`
      if ns.state = os.state then (processing, none)
      else
        -- processing-window check, then (in both continuations) the
        -- user_id filter, marking as processing, and scheduling
        match dlookup processing cfg_entity with
        | some started =>
            if now - started < 10 then (processing, none)
            else -- stale entry: pop it, then continue as usual
              if contextNoUser ns then (derase processing cfg_entity, none)
              else (dinsert (derase processing cfg_entity) cfg_entity now,
                    some (cfg_entity, ns, os))
        | none =>
            if contextNoUser ns then (processing, none)
            else (dinsert processing cfg_entity now, some (cfg_entity, ns, os))
    | _, _ => (processing, none)

/-- Read of the override map at lines 222-227 of `__init__.py`:
`get` with a default, followed by `del` when the key is present.
Returns the delay to use and the override map afterwards; when no
override exists the map is returned untouched. -/
def take_override (m : OverrideMap) (key : String) (default_seconds : Int) :
    Int × OverrideMap :=
  ((dlookup m key).getD default_seconds,
   if (dlookup m key).isSome then derase m key else m)

/-- Write of an override entry, `hass.data[delay_key][entity_id] = seconds`
(lines 94, 97, 100 of `__init__.py`). -/
def set_override (m : OverrideMap) (key : String) (seconds : Int) : OverrideMap :=
  dinsert m key seconds

/-- Notification dispatch of lines 136-219 of `__init__.py`, reduced to
the list of `notify` service names called.  `has_service name` models
`hass.services.has_service("notify", name)`.  The block runs only for an
`on → off` change with notifications enabled; with an empty
`phone_entity_ids` list nothing is sent at all; otherwise either each
configured phone with an existing `mobile_app` service is called, or the
single custom service is called. -/
def compute_notify (enable_notifications : Bool) (notification_service : String)
    (phone_entity_ids : List String) (has_service : String → Bool)
    (new_value old_value : String) : List String :=
  if new_value = "off" ∧ old_value = "on" ∧ enable_notifications = true then
    if phone_entity_ids = [] then []
    else
      let service_to_call :=
        if notification_service = "notify" ∨ notification_service = "mobile_app"
        then "notify" else notification_service
      if service_to_call = "notify" then
        phone_entity_ids.filterMap (fun phone_id =>
          let service_name :=
            if pyStartsWith phone_id "mobile_app_" then phone_id
            else "mobile_app_" ++ phone_id
          if has_service service_name then some service_name else none)
      else [service_to_call]
  else []

/-- Observable outcome of one run of `async_handle_state_change`:
the notify services called, the actuator (`input_boolean`) service calls
as `(service_action, entity_id)` pairs, the override and processing maps
after the run, the delay that was slept (`none` when the early
entity-mismatch return skipped the body), and whether the run ended with
an exception propagating out of the actuator call. -/
structure RunResult where
  notify_services : List String
  actuator_calls : List (String × String)
  overrides : OverrideMap
  processing : ProcMap
  actual_delay : Option Int
  raised : Bool
  deriving DecidableEq, Repr

/-- Embedding of the coroutine `async_handle_state_change`
(lines 116-278 of `__init__.py`).  `current_state` is the value of
`hass.states.get(changed_entity_id)` when the validation step runs after
the sleep; `actuator_ok` tells whether the blocking
`input_boolean.turn_on/turn_off` service call succeeds (when it does
not, the exception propagates but the `finally` block still clears the
processing entry). -/
def async_handle_state_change (cfg_entity : String) (delay_seconds : Int)
    (enable_notifications : Bool) (notification_service : String)
    (phone_entity_ids : List String) (has_service : String → Bool)
    (overrides : OverrideMap) (processing : ProcMap)
    (changed_entity_id : String) (new_state old_state : StateObj)
    (current_state : Option StateObj) (actuator_ok : Bool) : RunResult :=
  -- `if changed_entity_id != entity_id: return` (before the try block: no cleanup)
  if changed_entity_id ≠ cfg_entity then
    { notify_services := [], actuator_calls := [], overrides := overrides,
      processing := processing, actual_delay := none, raised := false }
  else
    let new_state_value := new_state.state
    let notify := compute_notify enable_notifications notification_service
        phone_entity_ids has_service new_state_value old_state.state
    let taken := take_override overrides changed_entity_id delay_seconds
    -- validation after the sleep, then the reverse service call
    let acts : List (String × String) :=
      match current_state with
      | none => []
      | some cs =>
          if cs.state ≠ new_state_value then []
          else if new_state_value = "on" then [("turn_off", changed_entity_id)]
          else if new_state_value = "off" then [("turn_on", changed_entity_id)]
          else []
    { notify_services := notify,
      actuator_calls := acts,
      overrides := taken.2,
      -- `finally: processing_entities.pop(changed_entity_id, None)`
      processing := derase processing changed_entity_id,
      actual_delay := some taken.1,
      raised := !acts.isEmpty && !actuator_ok }

/-- Value that the actuator service call drives the entity to:
`input_boolean.turn_off` yields `"off"`, `input_boolean.turn_on`
yields `"on"`. -/
def service_result_value (service_action : String) : String :=
  if service_action = "turn_off" then "off"
  else if service_action = "turn_on" then "on"
  else service_action

/-- A value found in `event.data`: either a string or some non-string
value with its python truthiness. -/
inductive EventVal where
  | vstr (s : String)
  | vother (truthy : Bool)
  deriving DecidableEq, Repr

/-- Python truthiness of `event.data.get(...)`: `None` (absent) is
falsy, a string is truthy iff nonempty. -/
def evTruthy : Option EventVal → Bool
  | none => false
  | some (.vstr s) => !(s == "")
  | some (.vother t) => t

/-- Mobile-app action event data: the `action` (Android) and
`actionName` (iOS) fields. -/
structure ActionEvent where
  action : Option EventVal
  actionName : Option EventVal
  deriving DecidableEq, Repr

/-- The resolution `event.data.get("action") or event.data.get("actionName")`:
python `or` yields the first operand when truthy, the second otherwise. -/
def resolved_action (ev : ActionEvent) : Option EventVal :=
  if evTruthy ev.action then ev.action else ev.actionName

/-- Split a character list at the first occurrence of the separator:
`none` when the separator does not occur, otherwise the part before it
and the remainder after it. -/
def splitOnceChars (s sep : List Char) : Option (List Char × List Char) :=
  match s with
  | [] => none
  | c :: rest =>
      if sep.isPrefixOf s then some ([], s.drop sep.length)
      else
        match splitOnceChars rest sep with
        | none => none
        | some (pre, post) => some (c :: pre, post)

/-- Python `s.split(sep, 1)` unpacked into two names: `none` when the
separator does not occur (the `ValueError` branch), otherwise the part
before the first occurrence and the remainder. -/
def split_once (s sep : String) : Option (String × String) :=
  (splitOnceChars s.toList sep.toList).map
    (fun p => (String.mk p.1, String.mk p.2))

/-- Embedding of the callback `_handle_mobile_app_action`
(lines 73-101 of `__init__.py`), returning the override map after the
event.  Every rejected shape (falsy or non-string action value, wrong
prefix, missing `::` separator, mismatched entity id, unknown action
kind) leaves the map untouched and raises nothing. -/
def _handle_mobile_app_action (cfg_entity : String) (ev : ActionEvent)
    (overrides : OverrideMap) : OverrideMap :=
  match resolved_action ev with
  | none => overrides
  | some (.vother _) => overrides  -- `not isinstance(action, str)` (or falsy): return
  | some (.vstr a) =>
      if a = "" then overrides  -- `not action`: return
      else if !(pyStartsWith a "SIB_") then overrides
      else
        match split_once a "::" with
        | none => overrides  -- `except ValueError: return`
        | some (action_key, target) =>
            if target ≠ cfg_entity then overrides
            else if action_key = "SIB_OFF_10" then set_override overrides cfg_entity 10
            else if action_key = "SIB_OFF_20" then set_override overrides cfg_entity 20
            else if action_key = "SIB_REACTIVATE" then set_override overrides cfg_entity 0
            else overrides

/-- A snapshot caused by the actuator service call itself: the service
call runs with a context whose `user_id` is `None` (no authenticated
user behind `hass.services.async_call` issued from the integration). -/
def is_actuator_echo (s : StateObj) : Prop :=
  ∃ cid, s.context = some { id := cid, user_id := none }

/-- Concrete entity id used by the closed counterexamples and witnesses. -/
def entity0 : String := "input_boolean.test"

/-- Concrete `on` snapshot carrying a user context. -/
def snapOnUser : StateObj :=
  { state := "on", context := some { id := "ctx1", user_id := some "user1" } }

/-- Concrete `off` snapshot carrying a user context. -/
def snapOffUser : StateObj :=
  { state := "off", context := some { id := "ctx2", user_id := some "user1" } }

/-- Concrete `on` snapshot with no context object at all. -/
def snapOnNoCtx : StateObj := { state := "on", context := none }

/-- Concrete `off` snapshot with no context object at all. -/
def snapOffNoCtx : StateObj := { state := "off", context := none }

/- Helper lemmas about the dict model. -/

theorem dlookup_dinsert {α : Type} (m : List (String × α)) (key : String) (v : α) :
    dlookup (dinsert m key v) key = some v := by
  simp [dinsert, dlookup]

theorem dlookup_derase {α : Type} (m : List (String × α)) (key : String) :
    dlookup (derase m key) key = none := by
  induction m with
  | nil => simp [derase, dlookup]
  | cons p rest ih =>
      obtain ⟨k, v⟩ := p
      by_cases h : k = key
      · simpa [derase, h] using ih
      · simpa [derase, dlookup, h] using ih

/-- Claim C5: `take_override` is an atomic read-and-clear.  After
`set_override m k s`, taking the override for `k` returns `s` and
deletes the entry, so a second take with no intervening set returns the
default and leaves the map as it is; and when no override exists for
`k`, the take returns the default and the map is returned unchanged. -/
theorem override_read_and_clear (m : OverrideMap) (k : String) (s d : Int) :
    (take_override (set_override m k s) k d).1 = s
    ∧ dlookup (take_override (set_override m k s) k d).2 k = none
    ∧ take_override (take_override (set_override m k s) k d).2 k d
        = (d, (take_override (set_override m k s) k d).2)
    ∧ ((dlookup m k).isSome = false → take_override m k d = (d, m)) := by
  refine ⟨?_, ?_, ?_, ?_⟩
  · simp [take_override, set_override, dlookup_dinsert]
  · simp [take_override, set_override, dlookup_dinsert, dlookup_derase]
  · simp [take_override, set_override, dlookup_dinsert, dlookup_derase]
  · intro h
    cases h' : dlookup m k with
    | none => simp [take_override, h']
    | some v => simp [h'] at h

/-- Witness for C5 at a concrete map: setting 10 and taking with
default 2 yields 10, and taking from the empty map yields the default
2 and the empty map back. -/
theorem override_read_and_clear_witness :
    (take_override (set_override [] entity0 10) entity0 2).1 = 10
    ∧ take_override [] entity0 2 = (2, []) :=
  ⟨(override_read_and_clear [] entity0 10 2).1,
   (override_read_and_clear [] entity0 10 2).2.2.2 (by decide)⟩

/-- Claim C3: a snapshot caused by the actuator itself (service-call
context, `user_id = None`) is classified as ignore by the event
callback and never schedules a pending reversal task, whatever the
processing map, the time, and the other event fields are. -/
theorem no_self_triggering (cfg : String) (processing : ProcMap)
    (now : Int) (ev_entity : Option String) (ns : StateObj)
    (old_state : Option StateObj) (h : is_actuator_echo ns) :
    (handle_input_boolean_change cfg processing now ev_entity
        (some ns) old_state).2 = none := by
  obtain ⟨cid, hc⟩ := h
  have hnu : contextNoUser ns = true := by simp [contextNoUser, hc, user_id_falsy]
  unfold handle_input_boolean_change
  split
  · rfl
  · split
    · split
      · rfl
      · split <;> split_ifs <;> simp_all
    · rfl

/-- Witness for C3: a concrete actuator-echo snapshot (`off`, context
present, `user_id = None`) is not scheduled. -/
theorem no_self_triggering_witness :
    (handle_input_boolean_change entity0 [] 5 (some entity0)
        (some { state := "off", context := some { id := "actx", user_id := none } })
        (some snapOnUser)).2 = none :=
  no_self_triggering entity0 [] 5 (some entity0)
    { state := "off", context := some { id := "actx", user_id := none } }
    (some snapOnUser) ⟨"actx", rfl⟩

/-- Claim C7: with a processing entry for the configured entity, a new
snapshot with an actual value change is ignored, map untouched, while
the entry is younger than ten seconds; once the entry is at least ten
seconds old, it is dropped as stale and the snapshot is processed
exactly as it would be against the map without that entry, and on
acceptance (user filter passed) a fresh processing entry at the current
time is recorded together with the scheduled task. -/
theorem loop_guard_window (cfg : String) (processing : ProcMap)
    (now started : Int) (ns os : StateObj)
    (hmem : dlookup processing cfg = some started)
    (hchange : ns.state ≠ os.state) :
    (now - started < 10 →
      handle_input_boolean_change cfg processing now (some cfg) (some ns) (some os)
        = (processing, none))
    ∧ (¬ now - started < 10 →
        handle_input_boolean_change cfg processing now (some cfg) (some ns) (some os)
          = handle_input_boolean_change cfg (derase processing cfg) now (some cfg)
              (some ns) (some os)
        ∧ (contextNoUser ns = false →
            handle_input_boolean_change cfg processing now (some cfg) (some ns) (some os)
              = (dinsert (derase processing cfg) cfg now, some (cfg, ns, os)))) := by
  constructor
  · intro hyoung
    simp [handle_input_boolean_change, hmem, hchange, hyoung]
  · intro hold
    constructor
    · simp [handle_input_boolean_change, hmem, hchange, hold, dlookup_derase]
    · intro hcu
      simp [handle_input_boolean_change, hmem, hchange, hold, hcu]

/-- Witness for C7: with an entry recorded at time 0, a qualifying
snapshot at time 3 is ignored with the map untouched, and one at time
12 is accepted with a fresh entry at time 12 and a scheduled task. -/
theorem loop_guard_window_witness :
    handle_input_boolean_change entity0 [(entity0, 0)] 3 (some entity0)
        (some snapOffUser) (some snapOnUser) = ([(entity0, 0)], none)
    ∧ handle_input_boolean_change entity0 [(entity0, 0)] 12 (some entity0)
        (some snapOffUser) (some snapOnUser)
        = (dinsert (derase [(entity0, 0)] entity0) entity0 12,
           some (entity0, snapOffUser, snapOnUser)) :=
  ⟨(loop_guard_window entity0 [(entity0, 0)] 3 0 snapOffUser snapOnUser
      (by decide) (by decide)).1 (by decide),
   ((loop_guard_window entity0 [(entity0, 0)] 12 0 snapOffUser snapOnUser
      (by decide) (by decide)).2 (by decide)).2 (by decide)⟩

/-- Counterexample to claim C9: a snapshot with no context object at
all has no actor identifier, yet the event callback processes it and
schedules a pending reversal task (the filter at lines 311-319 only
fires when a context object is present). -/
theorem absent_actor_cex :
    snapOnNoCtx.context = none
    ∧ (handle_input_boolean_change entity0 [] 0 (some entity0)
        (some snapOnNoCtx) (some snapOffNoCtx)).2
      = some (entity0, snapOnNoCtx, snapOffNoCtx) := by decide

/-- Claim C9 (amended): every incoming snapshot that carries a context
object whose actor identifier is absent or empty is ignored and never
schedules a pending reversal task; a snapshot without any context
object is processed. -/
theorem absent_actor_amended (cfg : String) (processing : ProcMap)
    (now : Int) (ev_entity : Option String) (ns : StateObj)
    (old_state : Option StateObj) (c : Context)
    (hctx : ns.context = some c) (hfalsy : user_id_falsy c.user_id = true) :
    (handle_input_boolean_change cfg processing now ev_entity
        (some ns) old_state).2 = none := by
  have hnu : contextNoUser ns = true := by simp [contextNoUser, hctx, hfalsy]
  unfold handle_input_boolean_change
  split
  · rfl
  · split
    · split
      · rfl
      · split <;> split_ifs <;> simp_all
    · rfl

/-- Witness for amended C9: a snapshot with a context whose `user_id`
is the empty string is not scheduled. -/
theorem absent_actor_amended_witness :
    (handle_input_boolean_change entity0 [] 7 (some entity0)
        (some { state := "on", context := some { id := "bctx", user_id := some "" } })
        (some snapOffUser)).2 = none :=
  absent_actor_amended entity0 [] 7 (some entity0)
    { state := "on", context := some { id := "bctx", user_id := some "" } }
    (some snapOffUser) { id := "bctx", user_id := some "" } rfl (by decide)

/-- Counterexample to claim C1: a second qualifying transition arriving
one second after the first was accepted (processing entry at time 0)
is ignored by the window check and NO new pending reversal task is
scheduled for it, although the very same snapshot is accepted when no
processing entry exists. -/
theorem supersession_cex :
    (handle_input_boolean_change entity0 [] 1 (some entity0)
        (some snapOffUser) (some snapOnUser)).2 ≠ none
    ∧ handle_input_boolean_change entity0 [(entity0, 0)] 1 (some entity0)
        (some snapOffUser) (some snapOnUser) = ([(entity0, 0)], none) := by decide

/-- Claim C1 (amended): given two qualifying transitions for the same
key with the second arriving while the first's processing entry is
younger than ten seconds, the second is ignored by the window check
(no new pending reversal task is scheduled for it), and the earlier
pending task never calls the actuator because the validation step
finds the entity's value changed. -/
theorem supersession_amended (cfg : String) (procs : ProcMap)
    (now started : Int) (ns os : StateObj)
    (hmem : dlookup procs cfg = some started)
    (hyoung : now - started < 10) (hchange : ns.state ≠ os.state) :
    handle_input_boolean_change cfg procs now (some cfg) (some ns) (some os)
      = (procs, none)
    ∧ ∀ (ds : Int) (en : Bool) (nsv : String) (ph : List String)
        (hs : String → Bool) (ov : OverrideMap) (pr : ProcMap)
        (ns1 os1 cs : StateObj) (aok : Bool), cs.state ≠ ns1.state →
        (async_handle_state_change cfg ds en nsv ph hs ov pr cfg ns1 os1
            (some cs) aok).actuator_calls = [] := by
  constructor
  · simp [handle_input_boolean_change, hmem, hchange, hyoung]
  · intro ds en nsv ph hs ov pr ns1 os1 cs aok hne
    simp [async_handle_state_change, hne]

/-- Witness for amended C1: the second transition at time 1 is ignored
with the map untouched, and the earlier task (which recorded `on`) sees
`off` at validation and makes no actuator call. -/
theorem supersession_amended_witness :
    handle_input_boolean_change entity0 [(entity0, 0)] 1 (some entity0)
        (some snapOffUser) (some snapOnUser) = ([(entity0, 0)], none)
    ∧ (async_handle_state_change entity0 2 false "notify" [] (fun _ => false)
        [] [(entity0, 0)] entity0 snapOnUser snapOffUser (some snapOffUser)
        true).actuator_calls = [] :=
  ⟨(supersession_amended entity0 [(entity0, 0)] 1 0 snapOffUser snapOnUser
      (by decide) (by decide) (by decide)).1,
   (supersession_amended entity0 [(entity0, 0)] 1 0 snapOffUser snapOnUser
      (by decide) (by decide) (by decide)).2 2 false "notify" [] (fun _ => false)
      [] [(entity0, 0)] snapOnUser snapOffUser snapOffUser true (by decide)⟩

/-- Claim C2: for a transition in either direction that passed the loop
guard (the callback scheduled the task), when the validation after the
delay finds the value unchanged, the actuator is called exactly once
for that key, the call drives the entity to the pre-transition value,
and the delay slept is the override if one was pending, the configured
delay otherwise. -/
theorem reversal_correctness (cfg : String) (ds : Int) (en : Bool)
    (nsv : String) (ph : List String) (hs : String → Bool)
    (ov : OverrideMap) (pr procs : ProcMap) (now : Int)
    (ns os cs : StateObj) (aok : Bool)
    (hpass : (handle_input_boolean_change cfg procs now (some cfg) (some ns)
        (some os)).2 = some (cfg, ns, os))
    (hdir : (ns.state = "on" ∧ os.state = "off")
        ∨ (ns.state = "off" ∧ os.state = "on"))
    (hcur : cs.state = ns.state) :
    (async_handle_state_change cfg ds en nsv ph hs ov pr cfg ns os
        (some cs) aok).actuator_calls
      = [((if ns.state = "on" then "turn_off" else "turn_on"), cfg)]
    ∧ service_result_value (if ns.state = "on" then "turn_off" else "turn_on")
        = os.state
    ∧ (async_handle_state_change cfg ds en nsv ph hs ov pr cfg ns os
        (some cs) aok).actual_delay = some ((dlookup ov cfg).getD ds) := by
  rcases hdir with ⟨hon, hoff⟩ | ⟨hoff, hon⟩
  · refine ⟨?_, ?_, ?_⟩
    · simp [async_handle_state_change, hcur, hon]
    · simp [service_result_value, hon, hoff]
    · simp [async_handle_state_change, take_override]
  · refine ⟨?_, ?_, ?_⟩
    · simp [async_handle_state_change, hcur, hoff]
    · simp [service_result_value, hoff, hon]
    · simp [async_handle_state_change, take_override]

/-- Witness for C2: an accepted `off → on` transition with the value
still `on` at validation yields exactly one `turn_off` call, driving
the entity back to `off`, after the configured 2-second delay. -/
theorem reversal_correctness_witness :
    (async_handle_state_change entity0 2 false "notify" [] (fun _ => false)
        [] [] entity0 snapOnUser snapOffUser (some snapOnUser) true).actuator_calls
      = [((if snapOnUser.state = "on" then "turn_off" else "turn_on"), entity0)]
    ∧ service_result_value
        (if snapOnUser.state = "on" then "turn_off" else "turn_on")
        = snapOffUser.state
    ∧ (async_handle_state_change entity0 2 false "notify" [] (fun _ => false)
        [] [] entity0 snapOnUser snapOffUser (some snapOnUser) true).actual_delay
      = some ((dlookup [] entity0).getD 2) :=
  reversal_correctness entity0 2 false "notify" [] (fun _ => false) [] [] []
    0 snapOnUser snapOffUser snapOnUser true (by decide)
    (Or.inl ⟨by decide, by decide⟩) (by decide)

/-- Claim C4: the validation step after the delay aborts without any
actuator call (and without raising) when the entity no longer exists,
when its current value differs from the value recorded at task start,
or when the recorded value is neither `on` nor `off`. -/
theorem validation_abort (cfg : String) (ds : Int) (en : Bool) (nsv : String)
    (ph : List String) (hs : String → Bool) (ov : OverrideMap) (pr : ProcMap)
    (ch : String) (ns os : StateObj) (cur : Option StateObj) (aok : Bool)
    (h : cur = none ∨ (∃ cs, cur = some cs ∧ cs.state ≠ ns.state)
        ∨ (ns.state ≠ "on" ∧ ns.state ≠ "off")) :
    (async_handle_state_change cfg ds en nsv ph hs ov pr ch ns os cur
        aok).actuator_calls = []
    ∧ (async_handle_state_change cfg ds en nsv ph hs ov pr ch ns os cur
        aok).raised = false := by
  rcases h with hnone | ⟨cs, hcs, hne⟩ | ⟨h1, h2⟩
  · by_cases hch : ch ≠ cfg <;> simp [async_handle_state_change, hch, hnone]
  · by_cases hch : ch ≠ cfg <;> simp [async_handle_state_change, hch, hcs, hne]
  · by_cases hch : ch ≠ cfg
    · simp [async_handle_state_change, hch]
    · cases cur with
      | none => simp [async_handle_state_change, hch]
      | some cs =>
          by_cases hcs : cs.state = ns.state <;>
            simp [async_handle_state_change, hch, hcs, h1, h2]

/-- Witness for C4 at a concrete input: the recorded value was `on` but
the entity reads `off` after the delay, so no actuator call happens and
nothing is raised. -/
theorem validation_abort_witness :
    (async_handle_state_change entity0 2 false "notify" [] (fun _ => false)
        [] [] entity0 snapOnUser snapOffUser (some snapOffUser)
        true).actuator_calls = []
    ∧ (async_handle_state_change entity0 2 false "notify" [] (fun _ => false)
        [] [] entity0 snapOnUser snapOffUser (some snapOffUser) true).raised
      = false :=
  validation_abort entity0 2 false "notify" [] (fun _ => false) [] [] entity0
    snapOnUser snapOffUser (some snapOffUser) true
    (Or.inr (Or.inl ⟨snapOffUser, rfl, by decide⟩))

/-- Claim C8: every run of the delayed task for the configured entity
removes the per-key processing entry (the `finally` block), whatever
path it takes — success, validation skip, or an actuator call that
throws; the actuator is called at most once, and a raised run means
exactly one (unretried) failing call. -/
theorem task_cleanup_no_retry (cfg : String) (ds : Int) (en : Bool)
    (nsv : String) (ph : List String) (hs : String → Bool)
    (ov : OverrideMap) (pr : ProcMap) (ns os : StateObj)
    (cur : Option StateObj) (aok : Bool) (ch : String) (hch : ch = cfg) :
    (async_handle_state_change cfg ds en nsv ph hs ov pr ch ns os cur
        aok).processing = derase pr ch
    ∧ (async_handle_state_change cfg ds en nsv ph hs ov pr ch ns os cur
        aok).actuator_calls.length ≤ 1
    ∧ ((async_handle_state_change cfg ds en nsv ph hs ov pr ch ns os cur
        aok).raised = true →
        (async_handle_state_change cfg ds en nsv ph hs ov pr ch ns os cur
            aok).actuator_calls.length = 1 ∧ aok = false) := by
  subst hch
  refine ⟨?_, ?_, ?_⟩ <;>
    cases cur <;>
      simp [async_handle_state_change] <;>
        split_ifs <;> simp_all

/-- Witness for C8: an `on` task whose actuator call fails still ends
with the processing entry removed, one single call, and the failure
propagating. -/
theorem task_cleanup_no_retry_witness :
    (async_handle_state_change entity0 2 false "notify" [] (fun _ => false)
        [] [(entity0, 0)] entity0 snapOnUser snapOffUser (some snapOnUser)
        false).processing = derase [(entity0, 0)] entity0
    ∧ (async_handle_state_change entity0 2 false "notify" [] (fun _ => false)
        [] [(entity0, 0)] entity0 snapOnUser snapOffUser (some snapOnUser)
        false).actuator_calls.length ≤ 1 :=
  ⟨(task_cleanup_no_retry entity0 2 false "notify" [] (fun _ => false) []
      [(entity0, 0)] snapOnUser snapOffUser (some snapOnUser) false entity0
      rfl).1,
   (task_cleanup_no_retry entity0 2 false "notify" [] (fun _ => false) []
      [(entity0, 0)] snapOnUser snapOffUser (some snapOnUser) false entity0
      rfl).2.1⟩

/-- Claim C10: with notifications enabled but an empty phone target
list, a qualifying `on → off` transition sends nothing at all — the run
is identical to the notifications-disabled run — and the pipeline still
reaches the actuator: with the value unchanged at validation the run
calls `turn_on` for the key. -/
theorem empty_targets_no_notify (cfg : String) (ds : Int) (nsv : String)
    (hs : String → Bool) (ov : OverrideMap) (pr : ProcMap)
    (ns os : StateObj) (cur : Option StateObj) (aok : Bool)
    (hoff : ns.state = "off") (hon : os.state = "on") :
    (async_handle_state_change cfg ds true nsv [] hs ov pr cfg ns os cur
        aok).notify_services = []
    ∧ async_handle_state_change cfg ds true nsv [] hs ov pr cfg ns os cur aok
        = async_handle_state_change cfg ds false nsv [] hs ov pr cfg ns os cur aok
    ∧ (∀ cs, cur = some cs → cs.state = ns.state →
        (async_handle_state_change cfg ds true nsv [] hs ov pr cfg ns os cur
            aok).actuator_calls = [("turn_on", cfg)]) := by
  refine ⟨?_, ?_, ?_⟩
  · simp [async_handle_state_change, compute_notify]
  · simp [async_handle_state_change, compute_notify]
  · intro cs hcs hss
    simp [async_handle_state_change, compute_notify, hcs, hss, hoff]

/-- Witness for C10: concrete `on → off` transition, empty phone list,
notifications enabled: no notify call, and the reversal `turn_on` call
still happens. -/
theorem empty_targets_no_notify_witness :
    (async_handle_state_change entity0 2 true "notify" [] (fun _ => false)
        [] [] entity0 snapOffUser snapOnUser (some snapOffUser)
        true).notify_services = []
    ∧ (async_handle_state_change entity0 2 true "notify" [] (fun _ => false)
        [] [] entity0 snapOffUser snapOnUser (some snapOffUser)
        true).actuator_calls = [("turn_on", entity0)] :=
  ⟨(empty_targets_no_notify entity0 2 "notify" (fun _ => false) [] []
      snapOffUser snapOnUser (some snapOffUser) true (by decide) (by decide)).1,
   (empty_targets_no_notify entity0 2 "notify" (fun _ => false) [] []
      snapOffUser snapOnUser (some snapOffUser) true (by decide) (by decide)).2.2
      snapOffUser rfl (by decide)⟩

/-- Claim C6: a received action value of the form
`SIB_OFF_10::key` / `SIB_OFF_20::key` / `SIB_REACTIVATE::key` with the
key equal to the configured entity writes override seconds 10, 20, or 0
respectively, and overwriting is last-write-wins; every rejected shape
— missing value, non-string value, empty or wrongly prefixed string,
missing `::` separator, mismatched entity key, or unrecognised action
kind — leaves the override map untouched (and the handler never
raises: it is a total function). -/
theorem action_string_handling (cfg : String) (ov : OverrideMap) :
    (∀ ev a, resolved_action ev = some (.vstr a) → a ≠ "" →
        pyStartsWith a "SIB_" = true →
        split_once a "::" = some ("SIB_OFF_10", cfg) →
        _handle_mobile_app_action cfg ev ov = set_override ov cfg 10
        ∧ dlookup (_handle_mobile_app_action cfg ev ov) cfg = some 10)
    ∧ (∀ ev a, resolved_action ev = some (.vstr a) → a ≠ "" →
        pyStartsWith a "SIB_" = true →
        split_once a "::" = some ("SIB_OFF_20", cfg) →
        _handle_mobile_app_action cfg ev ov = set_override ov cfg 20
        ∧ dlookup (_handle_mobile_app_action cfg ev ov) cfg = some 20)
    ∧ (∀ ev a, resolved_action ev = some (.vstr a) → a ≠ "" →
        pyStartsWith a "SIB_" = true →
        split_once a "::" = some ("SIB_REACTIVATE", cfg) →
        _handle_mobile_app_action cfg ev ov = set_override ov cfg 0
        ∧ dlookup (_handle_mobile_app_action cfg ev ov) cfg = some 0)
    ∧ (∀ s1 s2 : Int, dlookup (set_override (set_override ov cfg s1) cfg s2) cfg
        = some s2)
    ∧ (∀ ev, resolved_action ev = none → _handle_mobile_app_action cfg ev ov = ov)
    ∧ (∀ ev t, resolved_action ev = some (.vother t) →
        _handle_mobile_app_action cfg ev ov = ov)
    ∧ (∀ ev a, resolved_action ev = some (.vstr a) →
        (a = "" ∨ pyStartsWith a "SIB_" = false ∨ split_once a "::" = none) →
        _handle_mobile_app_action cfg ev ov = ov)
    ∧ (∀ ev a k target, resolved_action ev = some (.vstr a) →
        split_once a "::" = some (k, target) → target ≠ cfg →
        _handle_mobile_app_action cfg ev ov = ov)
    ∧ (∀ ev a k, resolved_action ev = some (.vstr a) →
        split_once a "::" = some (k, cfg) → k ≠ "SIB_OFF_10" →
        k ≠ "SIB_OFF_20" → k ≠ "SIB_REACTIVATE" →
        _handle_mobile_app_action cfg ev ov = ov) := by
  refine ⟨?_, ?_, ?_, ?_, ?_, ?_, ?_, ?_, ?_⟩
  · intro ev a h1 h2 h3 h4
    have hmain : _handle_mobile_app_action cfg ev ov = set_override ov cfg 10 := by
      simp [_handle_mobile_app_action, h1, h2, h3, h4]
    exact ⟨hmain, by rw [hmain]; exact dlookup_dinsert ov cfg 10⟩
  · intro ev a h1 h2 h3 h4
    have hmain : _handle_mobile_app_action cfg ev ov = set_override ov cfg 20 := by
      simp [_handle_mobile_app_action, h1, h2, h3, h4]
    exact ⟨hmain, by rw [hmain]; exact dlookup_dinsert ov cfg 20⟩
  · intro ev a h1 h2 h3 h4
    have hmain : _handle_mobile_app_action cfg ev ov = set_override ov cfg 0 := by
      simp [_handle_mobile_app_action, h1, h2, h3, h4]
    exact ⟨hmain, by rw [hmain]; exact dlookup_dinsert ov cfg 0⟩
  · intro s1 s2
    exact dlookup_dinsert (set_override ov cfg s1) cfg s2
  · intro ev h1
    simp [_handle_mobile_app_action, h1]
  · intro ev t h1
    simp [_handle_mobile_app_action, h1]
  · intro ev a h1 hbad
    rcases hbad with hb | hb | hb <;> simp [_handle_mobile_app_action, h1, hb]
  · intro ev a k target h1 h2 h3
    simp [_handle_mobile_app_action, h1, h2, h3]
  · intro ev a k h1 h2 h3 h4 h5
    simp [_handle_mobile_app_action, h1, h2, h3, h4, h5]

/-- Witness for C6: the concrete Android action
`SIB_OFF_10::input_boolean.test` writes a 10-second override readable
for the configured entity. -/
theorem action_string_handling_witness :
    _handle_mobile_app_action entity0
        { action := some (.vstr "SIB_OFF_10::input_boolean.test"),
          actionName := none } []
      = set_override [] entity0 10
    ∧ dlookup (_handle_mobile_app_action entity0
        { action := some (.vstr "SIB_OFF_10::input_boolean.test"),
          actionName := none } []) entity0 = some 10 :=
  (action_string_handling entity0 []).1
    { action := some (.vstr "SIB_OFF_10::input_boolean.test"),
      actionName := none }
    "SIB_OFF_10::input_boolean.test" (by decide) (by decide) (by decide)
    (by decide)

end SpringInputBooleans
